import Mathlib

/-!
Verification of the CityJSON reader (`pyvista_cityjson/reader.py`).

The Python source is shallowly embedded: JSON-like dynamically typed
boundary values become an inductive type, Python exceptions become an
`Except` layer, and `pyvista.PolyData` is modelled by the spec's `Mesh`
data model (points, polygons, and two parallel per-polygon attribute
columns).
-/

namespace CityJson

/-- A Python value appearing inside a `boundaries` array: either an
integer vertex index or a nested list. Mirrors the duck typing the
source performs with `isinstance(x, list)`. -/
inductive BVal where
  | leaf (n : Int)
  | node (xs : List BVal)
  deriving Repr

mutual

def BVal.deq : (a b : BVal) → Decidable (a = b)
  | .leaf m, .leaf n =>
      match decEq m n with
      | isTrue h => isTrue (by rw [h])
      | isFalse h => isFalse (by intro hh; cases hh; exact h rfl)
  | .leaf _, .node _ => isFalse (by intro h; cases h)
  | .node _, .leaf _ => isFalse (by intro h; cases h)
  | .node xs, .node ys =>
      match BVal.deqList xs ys with
      | isTrue h => isTrue (by rw [h])
      | isFalse h => isFalse (by intro hh; cases hh; exact h rfl)

def BVal.deqList : (a b : List BVal) → Decidable (a = b)
  | [], [] => isTrue rfl
  | [], _ :: _ => isFalse (by intro h; cases h)
  | _ :: _, [] => isFalse (by intro h; cases h)
  | x :: xs, y :: ys =>
      match BVal.deq x y, BVal.deqList xs ys with
      | isTrue h1, isTrue h2 => isTrue (by rw [h1, h2])
      | isFalse h1, _ => isFalse (by intro hh; cases hh; exact h1 rfl)
      | _, isFalse h2 => isFalse (by intro hh; cases hh; exact h2 rfl)

end

instance : DecidableEq BVal := BVal.deq

/-- The Python exceptions the reader's geometry traversal can raise. -/
inductive PyErr where
  | typeError
  | indexError
  deriving Repr, DecidableEq

/-- `_is_valid_face`: `len(face) >= 3`.  `len` of a non-list raises
`TypeError` in Python. -/
def is_valid_face : BVal → Except PyErr Bool
  | .node xs => .ok (decide (3 ≤ xs.length))
  | .leaf _ => .error .typeError

/-- One iteration of the inner loop of `_extract_solid_faces`:
`if isinstance(face_def, list) and len(face_def) > 0:` then
`face = face_def[0] if isinstance(face_def[0], list) else face_def`,
kept when `_is_valid_face(face)`.  Inside a Solid shell the resolved
face is always a list, so no exception can be raised here. -/
def solidFace : BVal → Option (List BVal)
  | .leaf _ => none
  | .node [] => none
  | .node (x :: xs) =>
      let face : List BVal :=
        match x with
        | .node ys => ys
        | .leaf _ => x :: xs
      if 3 ≤ face.length then some face else none

/-- The shell loop of `_extract_solid_faces`: `for shell in boundaries:
for face_def in shell: ...`.  Iterating over a non-list shell raises
`TypeError`. -/
def solidShells : List BVal → Except PyErr (List (List BVal))
  | [] => .ok []
  | .leaf _ :: _ => .error .typeError
  | .node fds :: rest => do
      let tail ← solidShells rest
      pure (fds.filterMap solidFace ++ tail)

/-- `_extract_solid_faces(boundaries)`. -/
def extract_solid_faces : BVal → Except PyErr (List (List BVal))
  | .leaf _ => .error .typeError
  | .node shells => solidShells shells

/-- One iteration of `_extract_surface_faces`:
`face = face_def[0] if isinstance(face_def, list) and
isinstance(face_def[0], list) else face_def`.  On an empty list,
`face_def[0]` raises `IndexError`; on a non-list `face_def` the later
`len(face)` in `_is_valid_face` raises `TypeError`. -/
def surfaceFace : BVal → Except PyErr (Option (List BVal))
  | .leaf _ => .error .typeError
  | .node [] => .error .indexError
  | .node (x :: xs) =>
      let face : List BVal :=
        match x with
        | .node ys => ys
        | .leaf _ => x :: xs
      .ok (if 3 ≤ face.length then some face else none)

/-- The loop of `_extract_surface_faces`, left to right. -/
def surfaceList : List BVal → Except PyErr (List (List BVal))
  | [] => .ok []
  | fd :: rest => do
      let r ← surfaceFace fd
      let tail ← surfaceList rest
      pure (match r with | some f => f :: tail | none => tail)

/-- `_extract_surface_faces(boundaries)`; iterating a non-list raises
`TypeError`. -/
def extract_surface_faces : BVal → Except PyErr (List (List BVal))
  | .leaf _ => .error .typeError
  | .node fds => surfaceList fds

/-- A CityJSON geometry record: `geometry.get("type", "")` and
`geometry.get("boundaries", [])` — `none` models an absent key. -/
structure Geometry where
  gtype : Option String
  boundaries : Option BVal
  deriving Repr, DecidableEq

def Geometry.typeStr (g : Geometry) : String := g.gtype.getD ""

def Geometry.bnds (g : Geometry) : BVal := g.boundaries.getD (.node [])

/-- `_extract_faces_from_geometry(geometry)`: dispatch on the geometry
type; any unsupported type contributes no faces. -/
def extract_faces_from_geometry (g : Geometry) : Except PyErr (List (List BVal)) :=
  if g.typeStr = "Solid" then extract_solid_faces g.bnds
  else if g.typeStr = "MultiSurface" ∨ g.typeStr = "CompositeSurface" then
    extract_surface_faces g.bnds
  else .ok []

/-- A CityObject record: `obj_data.get("type", "Unknown")` and
`obj_data.get("geometry", [])` — `none` models an absent key. -/
structure CityObject where
  ctype : Option String
  geometry : Option (List Geometry)
  deriving Repr, DecidableEq

def CityObject.typeStr (o : CityObject) : String := o.ctype.getD "Unknown"

def CityObject.geoms (o : CityObject) : List Geometry := o.geometry.getD []

/-- The geometry loop for one CityObject: concatenates the faces of each
geometry in order. -/
def objectFaces : List Geometry → Except PyErr (List (List BVal))
  | [] => .ok []
  | g :: rest => do
      let fs ← extract_faces_from_geometry g
      let tail ← objectFaces rest
      pure (fs ++ tail)

/-- A parsed CityJSON document as `_create_mesh` consumes it:
`vertices` is the coordinate list, `cityObjects` the `CityObjects`
mapping in insertion order. -/
structure CityDoc where
  vertices : List (Int × Int × Int)
  cityObjects : List (String × CityObject)
  deriving Repr, DecidableEq

/-- The outer loop of `_create_mesh`: every kept face paired with its
owning object's type string and mapping key, in traversal order. -/
def collectFaces : List (String × CityObject) → Except PyErr (List (List BVal × String × String))
  | [] => .ok []
  | (objId, o) :: rest => do
      let fs ← objectFaces o.geoms
      let tail ← collectFaces rest
      pure (fs.map (fun f => (f, o.typeStr, objId)) ++ tail)

/-- The mesh produced by `_create_mesh`.  Modelled from the spec:
`pyvista.PolyData` is an indexed polygon mesh holding a point array, a
polygon list and the per-polygon `cell_data` columns `object_type` and
`object_id`; `pv.PolyData()` is the empty mesh. -/
structure Mesh where
  points : List (Int × Int × Int)
  polygons : List (List BVal)
  object_type : List String
  object_id : List String
  deriving Repr, DecidableEq

def Mesh.empty : Mesh := ⟨[], [], [], []⟩

/-- `_create_mesh(document)`: short-circuit on empty vertices, collect
all faces, short-circuit to `pv.PolyData()` when no face was produced,
else build the mesh from the vertices, faces and attribute columns. -/
def create_mesh (d : CityDoc) : Except PyErr Mesh :=
  if d.vertices.length = 0 then .ok Mesh.empty
  else do
    let entries ← collectFaces d.cityObjects
    if entries.length = 0 then .ok Mesh.empty
    else .ok { points := d.vertices
               polygons := entries.map (fun e => e.1)
               object_type := entries.map (fun e => e.2.1)
               object_id := entries.map (fun e => e.2.2) }

/-- `np.where(mask)[0]`: the indices at which the mask is true, in
ascending order. -/
def whereIdx (mask : List Bool) : List Nat :=
  (List.range mask.length).filter (fun i => mask.getD i false)

/-- Modelled from the spec: `extract_cells` returns a new Mesh holding
the selected polygons (and their attribute entries) in index order,
with the point array retained as-is, not compacted to referenced
vertices. -/
def extract_cells (m : Mesh) (idx : List Nat) : Mesh :=
  { points := m.points
    polygons := idx.filterMap (fun i => m.polygons.get? i)
    object_type := idx.filterMap (fun i => m.object_type.get? i)
    object_id := idx.filterMap (fun i => m.object_id.get? i) }

/-- `filter_by_type(object_type)`: `None` when the `object_type` column
is absent (the built mesh is never Python `None` after `__init__`) or
when no cell matches; otherwise extract the matching cells. -/
def filter_by_type (m : Mesh) (t : String) : Option Mesh :=
  if m.object_type = [] then none
  else if (m.object_type.map (fun s => decide (s = t))).any id = false then none
  else some (extract_cells m
    (whereIdx (m.object_type.map (fun s => decide (s = t)))))

/-- `color_by_surface()`: `None` unless the `object_type` column exists,
else `self._mesh.copy()` — a structural copy, modelled as the mesh
itself. -/
def color_by_surface (m : Mesh) : Option Mesh :=
  if m.object_type = [] then none else some m

/-- A parsed JSON value, for the loader's top-level validation. -/
inductive Json where
  | null
  | bool (b : Bool)
  | num (n : Int)
  | str (s : String)
  | arr (xs : List Json)
  | obj (kvs : List (String × Json))

/-- The errors `_load_file` can raise.  `notFound` is the re-raised
`FileNotFoundError`, `malformedInput` the `ValueError` for invalid
JSON, `invalidFormat` the `ValueError` for a wrong `type` field, and
`attributeError` the Python `AttributeError` raised when `.get` is
called on a non-dict. -/
inductive LoadError where
  | notFound
  | malformedInput
  | invalidFormat
  | attributeError
  deriving Repr, DecidableEq

/-- The outcome of opening and JSON-parsing the file, abstracting the
filesystem and the JSON parser: the file is missing, its content is not
valid JSON, or it parses to a JSON value. -/
inductive RawFile where
  | missing
  | notJson
  | json (j : Json)

/-- Python `data.get("type")`: a dict lookup returning `None` when the
key is absent; on any non-dict value the attribute access raises
`AttributeError`. -/
def Json.getKey : Json → String → Except LoadError (Option Json)
  | .obj kvs, k => .ok ((kvs.find? (fun kv => kv.1 = k)).map (fun kv => kv.2))
  | _, _ => .error .attributeError

/-- Whether a looked-up `type` value equals the Python string
`"CityJSON"` (a non-string value never does). -/
def isCityJsonTag : Option Json → Bool
  | some (.str s) => s = "CityJSON"
  | _ => false

/-- `_load_file` up to format validation: re-raise the read/parse
failures, then check `self._data.get("type") != "CityJSON"` and return
the parsed document on success. -/
def load_file : RawFile → Except LoadError Json
  | .missing => .error .notFound
  | .notJson => .error .malformedInput
  | .json j => do
      let t ← j.getKey "type"
      if isCityJsonTag t then .ok j else .error .invalidFormat

/-- The spec's "resolve the outer ring" of a face entry: if the entry
is a nested list, take element 0; otherwise treat the entry itself as
the ring.  `none` when the entry has no resolvable ring (a non-list, or
an empty list). -/
def outerRing : BVal → Option (List BVal)
  | .leaf _ => none
  | .node [] => none
  | .node (x :: xs) =>
      some (match x with
            | .node ys => ys
            | .leaf _ => x :: xs)

/-- The loader's error table stated directly from the spec, amended for
the non-object top level: missing file ↦ `notFound`, invalid JSON ↦
`malformedInput`, a parsed JSON object whose `type` entry is absent or
not the string `"CityJSON"` ↦ `invalidFormat`, any parsed non-object
top level ↦ `attributeError`, and otherwise success with the parsed
document. -/
def loadSpec : RawFile → Except LoadError Json
  | .missing => .error .notFound
  | .notJson => .error .malformedInput
  | .json (.obj kvs) =>
      match (kvs.find? (fun kv => kv.1 = "type")).map (fun kv => kv.2) with
      | some (Json.str s) =>
          if s = "CityJSON" then .ok (.obj kvs) else .error .invalidFormat
      | _ => .error .invalidFormat
  | .json _ => .error .attributeError

/-- A face entry of the test suite's cube: one outer ring of four
vertex indices, no holes. -/
def cubeFaceEntry (a b c d : Int) : BVal :=
  .node [.node [.leaf a, .leaf b, .leaf c, .leaf d]]

/-- The sample document of the repository's tests: one Building with a
single Solid geometry, one shell of six quad faces over eight
vertices. -/
def cubeDoc : CityDoc :=
  { vertices := [(0,0,0),(1,0,0),(1,1,0),(0,1,0),(0,0,1),(1,0,1),(1,1,1),(0,1,1)]
    cityObjects :=
      [("building1",
        { ctype := some "Building"
          geometry := some
            [{ gtype := some "Solid"
               boundaries := some (.node
                 [.node [cubeFaceEntry 0 1 2 3, cubeFaceEntry 4 5 6 7,
                         cubeFaceEntry 0 1 5 4, cubeFaceEntry 2 3 7 6,
                         cubeFaceEntry 0 3 7 4, cubeFaceEntry 1 2 6 5]]) }] })] }

end CityJson

namespace CityJson

/-! ### Helper lemmas about face resolution and extraction -/

lemma solidFace_of_ring {fd : BVal} {r : List BVal} (h : outerRing fd = some r)
    (h3 : 3 ≤ r.length) : solidFace fd = some r := by
  cases fd with
  | leaf n => simp [outerRing] at h
  | node xs =>
    cases xs with
    | nil => simp [outerRing] at h
    | cons x xs =>
      cases x with
      | node ys =>
        simp only [outerRing, Option.some.injEq] at h
        subst h; simp [solidFace, h3]
      | leaf n =>
        simp only [outerRing, Option.some.injEq] at h
        subst h; simp [solidFace] at h3 ⊢; omega

lemma solidFace_of_short_ring {fd : BVal} {r : List BVal} (h : outerRing fd = some r)
    (h3 : r.length < 3) : solidFace fd = none := by
  cases fd with
  | leaf n => simp [outerRing] at h
  | node xs =>
    cases xs with
    | nil => simp [outerRing] at h
    | cons x xs =>
      cases x with
      | node ys =>
        simp only [outerRing, Option.some.injEq] at h
        subst h; simp [solidFace, Nat.not_le.mpr h3]
      | leaf n =>
        simp only [outerRing, Option.some.injEq] at h
        subst h; simp [solidFace] at h3 ⊢; omega

lemma solidFace_some_len {fd : BVal} {f : List BVal} (h : solidFace fd = some f) :
    3 ≤ f.length := by
  cases fd with
  | leaf n => simp [solidFace] at h
  | node xs =>
    cases xs with
    | nil => simp [solidFace] at h
    | cons x xs =>
      simp only [solidFace] at h
      split at h
      · exact Option.some.inj h ▸ ‹3 ≤ _›
      · exact absurd h (by simp)

lemma surfaceFace_of_ring {fd : BVal} {r : List BVal} (h : outerRing fd = some r) :
    surfaceFace fd = .ok (if 3 ≤ r.length then some r else none) := by
  cases fd with
  | leaf n => simp [outerRing] at h
  | node xs =>
    cases xs with
    | nil => simp [outerRing] at h
    | cons x xs =>
      simp only [outerRing, Option.some.injEq] at h
      cases x with
      | node ys => subst h; simp [surfaceFace]
      | leaf n => subst h; simp [surfaceFace]

lemma surfaceFace_ok_some_len {fd : BVal} {f : List BVal}
    (h : surfaceFace fd = .ok (some f)) : 3 ≤ f.length := by
  cases fd with
  | leaf n => simp [surfaceFace] at h
  | node xs =>
    cases xs with
    | nil => simp [surfaceFace] at h
    | cons x xs =>
      simp only [surfaceFace, Except.ok.injEq] at h
      split at h
      · exact Option.some.inj h ▸ ‹3 ≤ _›
      · exact absurd h (by simp)

lemma solidShells_mem_len {shells : List BVal} {out : List (List BVal)}
    (h : solidShells shells = .ok out) : ∀ f ∈ out, 3 ≤ f.length := by
  induction shells generalizing out with
  | nil => simp [solidShells] at h; subst h; intro f hf; simp at hf
  | cons s rest ih =>
    cases s with
    | leaf n => simp [solidShells] at h
    | node fds =>
      simp only [solidShells, bind, Except.bind] at h
      cases htail : solidShells rest with
      | error e => rw [htail] at h; exact absurd h (by simp [pure, Except.pure])
      | ok tail =>
        rw [htail] at h
        simp only [pure, Except.pure, Except.ok.injEq] at h
        subst h
        intro f hf
        rcases List.mem_append.mp hf with hf | hf
        · rcases List.mem_filterMap.mp hf with ⟨fd, _, hfd⟩
          exact solidFace_some_len hfd
        · exact ih htail f hf

lemma surfaceList_mem_len {fds : List BVal} {out : List (List BVal)}
    (h : surfaceList fds = .ok out) : ∀ f ∈ out, 3 ≤ f.length := by
  induction fds generalizing out with
  | nil => simp [surfaceList] at h; subst h; intro f hf; simp at hf
  | cons fd rest ih =>
    simp only [surfaceList, bind, Except.bind] at h
    cases hr : surfaceFace fd with
    | error e => rw [hr] at h; exact absurd h (by simp)
    | ok r =>
      rw [hr] at h
      cases htail : surfaceList rest with
      | error e => rw [htail] at h; exact absurd h (by simp [pure, Except.pure])
      | ok tail =>
        rw [htail] at h
        simp only [pure, Except.pure, Except.ok.injEq] at h
        subst h
        intro f hf
        cases r with
        | none => exact ih htail f hf
        | some g =>
          rcases List.mem_cons.mp hf with hf | hf
          · subst hf; exact surfaceFace_ok_some_len hr
          · exact ih htail f hf

/-! ### Helper lemmas about the object traversal and mesh assembly -/

lemma objectFaces_cons_ok {g : Geometry} {rest : List Geometry}
    {fs tail : List (List BVal)}
    (h1 : extract_faces_from_geometry g = .ok fs)
    (h2 : objectFaces rest = .ok tail) :
    objectFaces (g :: rest) = .ok (fs ++ tail) := by
  simp [objectFaces, bind, Except.bind, h1, h2, pure, Except.pure]

lemma collectFaces_cons_ok {objId : String} {o : CityObject}
    {rest : List (String × CityObject)}
    {fs : List (List BVal)} {tail : List (List BVal × String × String)}
    (h1 : objectFaces o.geoms = .ok fs)
    (h2 : collectFaces rest = .ok tail) :
    collectFaces ((objId, o) :: rest)
      = .ok (fs.map (fun f => (f, o.typeStr, objId)) ++ tail) := by
  simp [collectFaces, bind, Except.bind, h1, h2, pure, Except.pure]

lemma collectFaces_mem {objs : List (String × CityObject)}
    {entries : List (List BVal × String × String)}
    (h : collectFaces objs = .ok entries) :
    ∀ e ∈ entries, ∃ objId o fs, (objId, o) ∈ objs ∧
      objectFaces o.geoms = .ok fs ∧ e.1 ∈ fs ∧
      e.2.1 = o.typeStr ∧ e.2.2 = objId := by
  induction objs generalizing entries with
  | nil =>
    simp [collectFaces] at h; subst h; intro e he; simp at he
  | cons p rest ih =>
    obtain ⟨objId, o⟩ := p
    simp only [collectFaces, bind, Except.bind] at h
    cases h1 : objectFaces o.geoms with
    | error e => rw [h1] at h; exact absurd h (by simp)
    | ok fs =>
      rw [h1] at h
      cases h2 : collectFaces rest with
      | error e => rw [h2] at h; exact absurd h (by simp [pure, Except.pure])
      | ok tail =>
        rw [h2] at h
        simp only [pure, Except.pure, Except.ok.injEq] at h
        subst h
        intro e he
        rcases List.mem_append.mp he with he | he
        · rcases List.mem_map.mp he with ⟨f, hf, hfe⟩
          exact ⟨objId, o, fs, List.mem_cons_self _ _, h1, by
            subst hfe; exact hf, by subst hfe; rfl, by subst hfe; rfl⟩
        · obtain ⟨i, o', fs', hmem, hof, hin, ht, hid⟩ := ih h2 e he
          exact ⟨i, o', fs', List.mem_cons_of_mem _ hmem, hof, hin, ht, hid⟩

lemma create_mesh_of_entries {d : CityDoc}
    {entries : List (List BVal × String × String)}
    (hv : d.vertices ≠ [])
    (hc : collectFaces d.cityObjects = .ok entries)
    (hne : entries ≠ []) :
    create_mesh d = .ok { points := d.vertices
                          polygons := entries.map (fun e => e.1)
                          object_type := entries.map (fun e => e.2.1)
                          object_id := entries.map (fun e => e.2.2) } := by
  have hlen : d.vertices.length ≠ 0 := by
    simpa [List.length_eq_zero] using hv
  simp [create_mesh, hlen, bind, Except.bind, hc, hne, pure, Except.pure,
    List.length_eq_zero]

lemma create_mesh_no_faces {d : CityDoc}
    (hc : collectFaces d.cityObjects = .ok []) :
    create_mesh d = .ok Mesh.empty := by
  by_cases hv : d.vertices.length = 0
  · simp [create_mesh, hv]
  · simp [create_mesh, hv, bind, Except.bind, hc, pure, Except.pure]

lemma create_mesh_ok_shape {d : CityDoc} {m : Mesh}
    (h : create_mesh d = .ok m) :
    m = Mesh.empty ∨
      ∃ entries, collectFaces d.cityObjects = .ok entries ∧ entries ≠ [] ∧
        m = { points := d.vertices
              polygons := entries.map (fun e => e.1)
              object_type := entries.map (fun e => e.2.1)
              object_id := entries.map (fun e => e.2.2) } := by
  by_cases hv : d.vertices.length = 0
  · left
    simp [create_mesh, hv] at h
    exact h.symm
  · simp only [create_mesh, hv, if_false, bind, Except.bind] at h
    cases hc : collectFaces d.cityObjects with
    | error e => rw [hc] at h; exact absurd h (by simp)
    | ok entries =>
      rw [hc] at h
      by_cases hne : entries.length = 0
      · left
        simp [hne, pure, Except.pure] at h
        exact h.symm
      · right
        refine ⟨entries, rfl, by simpa [List.length_eq_zero] using hne, ?_⟩
        simp [hne, pure, Except.pure] at h
        exact h.symm

lemma mesh_attr_len {d : CityDoc} {m : Mesh} (h : create_mesh d = .ok m) :
    m.object_type.length = m.polygons.length ∧
      m.object_id.length = m.polygons.length := by
  rcases create_mesh_ok_shape h with hm | ⟨entries, _, _, hm⟩ <;>
    subst hm <;> simp [Mesh.empty]

/-! ### Helper lemmas about index selection (`np.where` + `extract_cells`) -/

lemma whereIdx_cons (b : Bool) (m : List Bool) :
    whereIdx (b :: m) = (if b then [0] else []) ++ (whereIdx m).map Nat.succ := by
  have hpred : ((fun i => (b :: m)[i]?.getD false) ∘ Nat.succ)
      = (fun i => m[i]?.getD false) := by
    funext i
    simp
  unfold whereIdx
  rw [List.length_cons, List.range_succ_eq_map, List.filter_cons, List.filter_map]
  cases b <;> simp [hpred]

lemma filterMap_get_shift {α : Type} (x : α) (xs : List α) (idx : List Nat) :
    idx.filterMap ((fun i => (x :: xs)[i]?) ∘ Nat.succ)
      = idx.filterMap (fun i => xs[i]?) := by
  congr 1
  funext i
  simp

lemma select_eq_filter_zip {α : Type} (t : String) :
    ∀ (ys : List String) (xs : List α), xs.length = ys.length →
      (whereIdx (ys.map (fun s => decide (s = t)))).filterMap (fun i => xs[i]?)
        = ((xs.zip ys).filter (fun p => decide (p.2 = t))).map Prod.fst := by
  intro ys
  induction ys with
  | nil =>
    intro xs h
    have h0 : xs.length = 0 := by simpa using h
    rw [List.length_eq_zero] at h0
    subst h0
    simp [whereIdx]
  | cons y ys ih =>
    intro xs h
    cases xs with
    | nil => simp at h
    | cons x xs =>
      have hlen : xs.length = ys.length := by simpa using h
      by_cases hy : y = t <;>
        simp [whereIdx_cons, List.filterMap_append, filterMap_get_shift, hy,
          List.filterMap_cons, ih xs hlen, List.filter_cons]

lemma zip_self_filter (q : String → Bool) :
    ∀ l : List String, ((l.zip l).filter (fun p => q p.2)).map Prod.fst = l.filter q := by
  intro l
  induction l with
  | nil => rfl
  | cons s rest ih =>
    rw [List.zip_cons_cons, List.filter_cons, List.filter_cons]
    cases hs : q s
    · simpa [hs] using ih
    · simpa [hs] using ih

lemma mask_any_false_iff (l : List String) (t : String) :
    (l.map (fun s => decide (s = t))).any id = false ↔ t ∉ l := by
  rw [List.any_eq_false]
  constructor
  · intro h ht
    exact h true (List.mem_map.mpr ⟨t, ht, by simp⟩) rfl
  · intro h b hb hbt
    rcases List.mem_map.mp hb with ⟨s, hs, hsb⟩
    have hb' : b = true := hbt
    subst hb'
    have hst : s = t := by simpa using hsb
    exact h (hst ▸ hs)

lemma mask_any_true_iff (l : List String) (t : String) :
    (l.map (fun s => decide (s = t))).any id = true ↔ t ∈ l := by
  constructor
  · intro h
    by_contra hc
    have hf := (mask_any_false_iff l t).mpr hc
    rw [h] at hf
    cases hf
  · intro h
    cases hb : (l.map (fun s => decide (s = t))).any id
    · exact absurd ((mask_any_false_iff l t).mp hb) (not_not_intro h)
    · rfl

lemma filterMap_solidFace_length {fds : List BVal}
    (hr : ∀ fd ∈ fds, ∃ r, outerRing fd = some r ∧ 3 ≤ r.length) :
    (fds.filterMap solidFace).length = fds.length := by
  induction fds with
  | nil => rfl
  | cons fd rest ih =>
    obtain ⟨r, hres, h3⟩ := hr fd (List.mem_cons_self _ _)
    rw [List.filterMap_cons, solidFace_of_ring hres h3]
    simp [ih (fun fd hfd => hr fd (List.mem_cons_of_mem _ hfd))]

/-! ### Claim theorems -/

/-- C1 counterexample: a document with one vertex and no CityObjects
produces zero polygons, yet `_create_mesh` returns the bare
`pv.PolyData()` whose point array is empty, not the copied vertex. -/
theorem zero_polygon_points_counterexample :
    collectFaces ([] : List (String × CityObject)) = .ok [] ∧
    create_mesh ⟨[(0,0,0)], []⟩ = .ok Mesh.empty ∧
    Mesh.empty.points ≠ [(0,0,0)] :=
  ⟨rfl, rfl, by decide⟩

/-- C1 (amended): for every document with a non-empty vertices array
whose traversal produces zero polygons, `_create_mesh` returns the
empty Mesh — zero points, zero polygons, empty attribute columns — the
same empty state as the zero-vertices case. -/
theorem zero_polygon_empty_mesh (d : CityDoc)
    (_hv : d.vertices ≠ [])
    (hc : collectFaces d.cityObjects = .ok []) :
    create_mesh d = .ok Mesh.empty ∧ Mesh.empty.points = [] ∧
      Mesh.empty.polygons = [] ∧ Mesh.empty.object_type = [] ∧
      Mesh.empty.object_id = [] :=
  ⟨create_mesh_no_faces hc, rfl, rfl, rfl, rfl⟩

/-- C1 witness: the amended claim at the one-vertex document with no
CityObjects. -/
theorem zero_polygon_empty_mesh_witness :
    create_mesh ⟨[(0,0,0)], []⟩ = .ok Mesh.empty ∧ Mesh.empty.points = [] ∧
      Mesh.empty.polygons = [] ∧ Mesh.empty.object_type = [] ∧
      Mesh.empty.object_id = [] :=
  zero_polygon_empty_mesh ⟨[(0,0,0)], []⟩ (by decide) rfl

/-- C2: the claim that geometry-level problems never raise is violated
by the code: an empty face entry inside a MultiSurface boundaries list
makes `_extract_surface_faces` evaluate `face_def[0]` on an empty list,
raising `IndexError`, so building this otherwise valid document
fails. -/
theorem empty_face_entry_raises :
    create_mesh ⟨[(0,0,0),(1,0,0),(1,1,0)],
      [("o", ⟨some "Building",
              some [⟨some "MultiSurface", some (.node [.node []])⟩]⟩)]⟩
      = .error .indexError := rfl

/-- C6: for every document with empty vertices, `_create_mesh` returns
the empty Mesh (zero points, zero polygons) without iterating
CityObjects — for any CityObjects content, including content whose
traversal would raise. -/
theorem empty_vertices_empty_mesh (objs : List (String × CityObject)) :
    create_mesh ⟨[], objs⟩ = .ok Mesh.empty ∧
      Mesh.empty.points.length = 0 ∧ Mesh.empty.polygons.length = 0 :=
  ⟨rfl, rfl, rfl⟩

/-- C7: a face entry whose resolved outer ring has fewer than 3 indices
is dropped during flattening in both the Solid and the
MultiSurface/CompositeSurface paths — it contributes zero faces and no
error — and every face either path emits has at least 3 indices. -/
theorem short_ring_dropped (fd : BVal) (r : List BVal)
    (hres : outerRing fd = some r) (hshort : r.length < 3) :
    solidFace fd = none ∧
    surfaceFace fd = .ok none ∧
    extract_solid_faces (.node [.node [fd]]) = .ok [] ∧
    extract_surface_faces (.node [fd]) = .ok [] ∧
    (∀ bs out, extract_solid_faces bs = .ok out → ∀ f ∈ out, 3 ≤ f.length) ∧
    (∀ bs out, extract_surface_faces bs = .ok out → ∀ f ∈ out, 3 ≤ f.length) := by
  have hsf : solidFace fd = none := solidFace_of_short_ring hres hshort
  have huf : surfaceFace fd = .ok none := by
    rw [surfaceFace_of_ring hres, if_neg (Nat.not_le.mpr hshort)]
  refine ⟨hsf, huf, ?_, ?_, ?_, ?_⟩
  · show solidShells [.node [fd]] = .ok []
    simp [solidShells, List.filterMap_cons, hsf, bind, Except.bind, pure,
      Except.pure]
  · show surfaceList [fd] = .ok []
    simp [surfaceList, huf, bind, Except.bind, pure, Except.pure]
  · intro bs out hok
    cases bs with
    | leaf n => exact absurd hok (by simp [extract_solid_faces])
    | node shells => exact solidShells_mem_len hok
  · intro bs out hok
    cases bs with
    | leaf n => exact absurd hok (by simp [extract_surface_faces])
    | node fds => exact surfaceList_mem_len hok

/-- C7 witness: the two-index face entry `[0, 1]` is dropped by both
extraction paths without error. -/
theorem short_ring_dropped_witness :
    solidFace (.node [.leaf 0, .leaf 1]) = none ∧
    surfaceFace (.node [.leaf 0, .leaf 1]) = .ok none ∧
    extract_solid_faces (.node [.node [.node [.leaf 0, .leaf 1]]]) = .ok [] ∧
    extract_surface_faces (.node [.node [.leaf 0, .leaf 1]]) = .ok [] := by
  obtain ⟨h1, h2, h3, h4, _, _⟩ :=
    short_ring_dropped (.node [.leaf 0, .leaf 1]) [.leaf 0, .leaf 1] rfl
      (by decide)
  exact ⟨h1, h2, h3, h4⟩

/-- C4 counterexample: valid JSON whose top level is a list (not an
object) does not fail with the `InvalidFormatError` `ValueError` — the
`.get` call on the parsed list raises `AttributeError` instead. -/
theorem load_nonobject_counterexample :
    load_file (.json (.arr [])) = .error .attributeError ∧
    LoadError.attributeError ≠ LoadError.invalidFormat :=
  ⟨rfl, by decide⟩

/-- C4 (amended): `_load_file` fails with `NotFoundError` on a missing
file and `MalformedInputError` on invalid JSON; for a parsed JSON
object it fails with `InvalidFormatError` exactly when the `type` entry
is absent or not the string `"CityJSON"` and succeeds otherwise; but a
parsed non-object top level raises `AttributeError`, not
`InvalidFormatError`. -/
theorem load_file_eq_loadSpec (r : RawFile) : load_file r = loadSpec r := by
  cases r with
  | missing => rfl
  | notJson => rfl
  | json j =>
    cases j with
    | null => rfl
    | bool b => rfl
    | num n => rfl
    | str s => rfl
    | arr xs => rfl
    | obj kvs =>
      simp only [load_file, loadSpec, Json.getKey, bind, Except.bind]
      cases hfind : (kvs.find? (fun kv => kv.1 = "type")).map (fun kv => kv.2) with
      | none => simp [isCityJsonTag]
      | some v =>
        cases v with
        | str s =>
          by_cases hs : s = "CityJSON" <;> simp [isCityJsonTag, hs]
        | null => simp [isCityJsonTag]
        | bool b => simp [isCityJsonTag]
        | num n => simp [isCityJsonTag]
        | arr xs => simp [isCityJsonTag]
        | obj kvs2 => simp [isCityJsonTag]

/-- C5: a document with a non-empty vertex list and one CityObject
holding a single Solid geometry with one shell of N face entries, each
resolving to an outer ring of at least 3 indices, builds a mesh with
exactly N polygons, each tagged with that object's type and mapping
key; when N is positive the point array is the copied vertices. -/
theorem solid_shell_polygons (verts : List (Int × Int × Int))
    (objId ty : String) (fds : List BVal)
    (hv : verts ≠ [])
    (hr : ∀ fd ∈ fds, ∃ r, outerRing fd = some r ∧ 3 ≤ r.length) :
    ∃ m, create_mesh
        ⟨verts, [(objId, ⟨some ty,
          some [⟨some "Solid", some (.node [.node fds])⟩]⟩)]⟩ = .ok m ∧
      m.polygons.length = fds.length ∧
      m.object_type = List.replicate fds.length ty ∧
      m.object_id = List.replicate fds.length objId ∧
      (fds ≠ [] → m.points = verts) := by
  set g : Geometry := ⟨some "Solid", some (.node [.node fds])⟩ with hg
  set o : CityObject := ⟨some ty, some [g]⟩ with ho
  have hgfaces : extract_faces_from_geometry g = .ok (fds.filterMap solidFace) := by
    show extract_solid_faces (.node [.node fds]) = _
    show solidShells [.node fds] = _
    simp [solidShells, bind, Except.bind, pure, Except.pure]
  have hof : objectFaces o.geoms = .ok (fds.filterMap solidFace) := by
    show objectFaces [g] = _
    rw [objectFaces_cons_ok hgfaces (show objectFaces [] = .ok [] from rfl),
      List.append_nil]
  have hcf : collectFaces [(objId, o)]
      = .ok ((fds.filterMap solidFace).map (fun f => (f, ty, objId))) := by
    rw [collectFaces_cons_ok hof
      (show collectFaces [] = .ok [] from rfl), List.append_nil]
    rfl
  have hlen : (fds.filterMap solidFace).length = fds.length :=
    filterMap_solidFace_length hr
  by_cases hfe : fds = []
  · subst hfe
    refine ⟨Mesh.empty, create_mesh_no_faces (by simpa using hcf), ?_, ?_, ?_, ?_⟩
    · rfl
    · rfl
    · rfl
    · intro hne; exact absurd rfl hne
  · have hne : (fds.filterMap solidFace).map (fun f => (f, ty, objId)) ≠ [] := by
      intro hcontra
      have := congrArg List.length hcontra
      simp [hlen] at this
      exact hfe this
    refine ⟨_, create_mesh_of_entries hv hcf hne, ?_, ?_, ?_, ?_⟩
    · simp [hlen]
    · show List.map _ _ = _
      rw [List.map_map,
        show ((fun (e : List BVal × String × String) => e.2.1)
          ∘ fun f => (f, ty, objId)) = fun _ => ty from rfl,
        List.map_const', hlen]
    · show List.map _ _ = _
      rw [List.map_map,
        show ((fun (e : List BVal × String × String) => e.2.2)
          ∘ fun f => (f, ty, objId)) = fun _ => objId from rfl,
        List.map_const', hlen]
    · intro _; rfl

/-- C5 witness: the test suite's Solid cube — 8 vertices, one shell of
6 quad faces — builds a mesh with 8 points and 6 polygons, all tagged
`"Building"`/`"building1"`. -/
theorem solid_shell_polygons_witness :
    ∃ m, create_mesh cubeDoc = .ok m ∧ m.points.length = 8 ∧
      m.polygons.length = 6 ∧
      m.object_type = List.replicate 6 "Building" ∧
      m.object_id = List.replicate 6 "building1" := by
  obtain ⟨m, hm, hplen, hty, hid, hpts⟩ :=
    solid_shell_polygons
      [(0,0,0),(1,0,0),(1,1,0),(0,1,0),(0,0,1),(1,0,1),(1,1,1),(0,1,1)]
      "building1" "Building"
      [cubeFaceEntry 0 1 2 3, cubeFaceEntry 4 5 6 7, cubeFaceEntry 0 1 5 4,
       cubeFaceEntry 2 3 7 6, cubeFaceEntry 0 3 7 4, cubeFaceEntry 1 2 6 5]
      (by decide)
      (by
        intro fd hfd
        simp only [List.mem_cons, List.not_mem_nil, or_false] at hfd
        rcases hfd with rfl | rfl | rfl | rfl | rfl | rfl <;>
          exact ⟨_, rfl, by decide⟩)
  refine ⟨m, hm, ?_, by simpa using hplen, by simpa using hty,
    by simpa using hid⟩
  rw [hpts (by decide)]
  rfl

/-- C3: on a built mesh with at least one polygon, `filter_by_type t`
returns `None` exactly when no polygon's `object_type` attribute equals
`t`, and otherwise a mesh that keeps the point array unchanged and
whose polygons and attribute columns are exactly the order-preserving
subsequences of entries whose `object_type` equals `t`. -/
theorem filter_by_type_spec (d : CityDoc) (m : Mesh) (t : String)
    (hbuild : create_mesh d = .ok m) (hpoly : m.polygons ≠ []) :
    (filter_by_type m t = none ↔ t ∉ m.object_type) ∧
    (∀ m', filter_by_type m t = some m' →
      m'.points = m.points ∧
      m'.polygons
        = ((m.polygons.zip m.object_type).filter
            (fun p => decide (p.2 = t))).map Prod.fst ∧
      m'.object_type = m.object_type.filter (fun s => decide (s = t)) ∧
      m'.object_id
        = ((m.object_id.zip m.object_type).filter
            (fun p => decide (p.2 = t))).map Prod.fst) := by
  obtain ⟨hlt, hli⟩ := mesh_attr_len hbuild
  have h0 : m.object_type ≠ [] := by
    intro hc
    have hz : m.polygons.length = 0 := by rw [← hlt, hc]; rfl
    exact hpoly (List.length_eq_zero.mp hz)
  constructor
  · unfold filter_by_type
    rw [if_neg h0]
    cases hany : (m.object_type.map (fun s => decide (s = t))).any id with
    | false =>
      simp [(mask_any_false_iff m.object_type t).mp hany]
    | true =>
      rw [if_neg (by simp)]
      constructor
      · intro hc
        exact Option.noConfusion hc
      · intro hc
        exact absurd ((mask_any_true_iff m.object_type t).mp hany) hc
  · intro m' hm'
    unfold filter_by_type at hm'
    rw [if_neg h0] at hm'
    cases hany : (m.object_type.map (fun s => decide (s = t))).any id with
    | false => rw [if_pos hany] at hm'; cases hm'
    | true =>
      rw [if_neg (by simp [hany])] at hm'
      have hm'' := (Option.some.inj hm').symm
      subst hm''
      refine ⟨rfl, ?_, ?_, ?_⟩
      · show (whereIdx _).filterMap (fun i => m.polygons.get? i) = _
        simp only [List.get?_eq_getElem?]
        exact select_eq_filter_zip t m.object_type m.polygons hlt.symm
      · show (whereIdx _).filterMap (fun i => m.object_type.get? i) = _
        simp only [List.get?_eq_getElem?]
        rw [select_eq_filter_zip t m.object_type m.object_type rfl]
        exact zip_self_filter (fun s => decide (s = t)) m.object_type
      · show (whereIdx _).filterMap (fun i => m.object_id.get? i) = _
        simp only [List.get?_eq_getElem?]
        exact select_eq_filter_zip t m.object_type m.object_id
          (hli.trans hlt.symm)

/-- C3 witness: on the built one-triangle Building mesh, filtering by
the absent type `"Bridge"` returns `None`. -/
theorem filter_by_type_spec_witness :
    filter_by_type
        ⟨[(0,0,0),(1,0,0),(1,1,0)], [[.leaf 0, .leaf 1, .leaf 2]],
         ["Building"], ["b1"]⟩ "Bridge" = none
      ↔ "Bridge" ∉
          (⟨[(0,0,0),(1,0,0),(1,1,0)], [[.leaf 0, .leaf 1, .leaf 2]],
            ["Building"], ["b1"]⟩ : Mesh).object_type :=
  (filter_by_type_spec
    ⟨[(0,0,0),(1,0,0),(1,1,0)],
     [("b1", ⟨some "Building",
        some [⟨some "MultiSurface",
          some (.node [.node [.node [.leaf 0, .leaf 1, .leaf 2]]])⟩]⟩)]⟩
    _ "Bridge" rfl (by decide)).1

/-- C8: on every built mesh the `object_type` and `object_id` columns
have length exactly the polygon count, and each polygon's attribute
pair is the type string and mapping key of a CityObject of the
document whose geometry produced that polygon. -/
theorem mesh_attribute_parallel (d : CityDoc) (m : Mesh)
    (h : create_mesh d = .ok m) :
    m.object_type.length = m.polygons.length ∧
    m.object_id.length = m.polygons.length ∧
    (∀ i, i < m.polygons.length →
      ∃ objId o fs, (objId, o) ∈ d.cityObjects ∧
        objectFaces o.geoms = .ok fs ∧
        m.polygons.getD i [] ∈ fs ∧
        m.object_type.getD i "" = o.typeStr ∧
        m.object_id.getD i "" = objId) := by
  obtain ⟨hlt, hli⟩ := mesh_attr_len h
  refine ⟨hlt, hli, ?_⟩
  intro i hi
  rcases create_mesh_ok_shape h with hm | ⟨entries, hce, _, hm⟩
  · rw [hm] at hi
    simp [Mesh.empty] at hi
  · have hie : i < entries.length := by
      rw [hm] at hi
      simpa using hi
    obtain ⟨objId, o, fs, hmem, hof, hin, ht, hid⟩ :=
      collectFaces_mem hce (entries.get ⟨i, hie⟩)
        (List.get_mem entries i hie)
    refine ⟨objId, o, fs, hmem, hof, ?_, ?_, ?_⟩
    · rw [hm]
      show (entries.map (fun e => e.1)).getD i [] ∈ fs
      rw [List.getD_eq_getElem _ _ (by simpa using hie), List.getElem_map]
      exact hin
    · rw [hm]
      show (entries.map (fun e => e.2.1)).getD i "" = o.typeStr
      rw [List.getD_eq_getElem _ _ (by simpa using hie), List.getElem_map]
      exact ht
    · rw [hm]
      show (entries.map (fun e => e.2.2)).getD i "" = objId
      rw [List.getD_eq_getElem _ _ (by simpa using hie), List.getElem_map]
      exact hid

/-- C8 witness: the one-triangle Building document's mesh has both
attribute columns of length 1 and polygon 0 tagged by its producing
object. -/
theorem mesh_attribute_parallel_witness :
    (["Building"] : List String).length
        = [[BVal.leaf 0, .leaf 1, .leaf 2]].length ∧
    (["b1"] : List String).length
        = [[BVal.leaf 0, .leaf 1, .leaf 2]].length ∧
    (∃ objId o fs,
      (objId, o) ∈ ([("b1", (⟨some "Building",
          some [⟨some "MultiSurface",
            some (.node [.node [.node [.leaf 0, .leaf 1, .leaf 2]]])⟩]⟩ :
          CityObject))] : List (String × CityObject)) ∧
      objectFaces o.geoms = .ok fs ∧
      ([[BVal.leaf 0, .leaf 1, .leaf 2]].getD 0 []) ∈ fs ∧
      (["Building"].getD 0 "") = o.typeStr ∧
      (["b1"].getD 0 "") = objId) := by
  obtain ⟨h1, h2, h3⟩ := mesh_attribute_parallel
    ⟨[(0,0,0),(1,0,0),(1,1,0)],
     [("b1", ⟨some "Building",
        some [⟨some "MultiSurface",
          some (.node [.node [.node [.leaf 0, .leaf 1, .leaf 2]]])⟩]⟩)]⟩
    ⟨[(0,0,0),(1,0,0),(1,1,0)], [[.leaf 0, .leaf 1, .leaf 2]],
     ["Building"], ["b1"]⟩ rfl
  exact ⟨h1, h2, h3 0 (by decide)⟩

/-- C9: on every built mesh, `color_by_surface` returns `None` exactly
when the mesh holds no polygons, and otherwise returns the structural
copy of the full mesh unchanged. -/
theorem color_by_surface_spec (d : CityDoc) (m : Mesh)
    (h : create_mesh d = .ok m) :
    (color_by_surface m = none ↔ m.polygons = []) ∧
    (m.polygons ≠ [] → color_by_surface m = some m) := by
  obtain ⟨hlt, _⟩ := mesh_attr_len h
  have hiff : m.object_type = [] ↔ m.polygons = [] := by
    rw [← List.length_eq_zero, ← List.length_eq_zero, hlt]
  constructor
  · unfold color_by_surface
    by_cases h0 : m.object_type = []
    · simp [h0, hiff.mp h0]
    · rw [if_neg h0]
      simp only [Option.some_ne_none, false_iff]
      exact fun hc => h0 (hiff.mpr hc)
  · intro hp
    unfold color_by_surface
    rw [if_neg (fun h0 => hp (hiff.mp h0))]

/-- C9 witness: the one-triangle built mesh has a polygon, so
`color_by_surface` returns the mesh itself. -/
theorem color_by_surface_spec_witness :
    color_by_surface
        ⟨[(0,0,0),(1,0,0),(1,1,0)], [[.leaf 0, .leaf 1, .leaf 2]],
         ["Building"], ["b1"]⟩
      = some ⟨[(0,0,0),(1,0,0),(1,1,0)], [[.leaf 0, .leaf 1, .leaf 2]],
         ["Building"], ["b1"]⟩ :=
  (color_by_surface_spec
    ⟨[(0,0,0),(1,0,0),(1,1,0)],
     [("b1", ⟨some "Building",
        some [⟨some "MultiSurface",
          some (.node [.node [.node [.leaf 0, .leaf 1, .leaf 2]]])⟩]⟩)]⟩
    _ rfl).2 (by decide)

/-- C10: a CityObject whose record lacks a `type` entry tags every
polygon its geometry produces with `"Unknown"` while the `object_id`
attribute is still the mapping key, and a CityObject lacking a
`geometry` entry contributes zero polygons without error. -/
theorem missing_fields_defaults (objId : String) (o : CityObject)
    (rest : List (String × CityObject))
    (tail : List (List BVal × String × String)) (fs : List (List BVal))
    (htail : collectFaces rest = .ok tail) :
    (o.ctype = none → objectFaces o.geoms = .ok fs →
      collectFaces ((objId, o) :: rest)
        = .ok (fs.map (fun f => (f, "Unknown", objId)) ++ tail)) ∧
    (o.geometry = none → collectFaces ((objId, o) :: rest) = .ok tail) := by
  constructor
  · intro hct hof
    rw [collectFaces_cons_ok hof htail]
    have hts : o.typeStr = "Unknown" := by simp [CityObject.typeStr, hct]
    simp [hts]
  · intro hg
    have hof : objectFaces o.geoms = .ok [] := by
      simp [CityObject.geoms, hg, objectFaces]
    rw [collectFaces_cons_ok hof htail]
    simp

/-- C10 witness: a typeless object with a triangle MultiSurface yields
one entry tagged `"Unknown"`/its key, and an object with no geometry
yields no entries. -/
theorem missing_fields_defaults_witness :
    collectFaces [("x", ⟨none,
        some [⟨some "MultiSurface",
          some (.node [.node [.node [.leaf 0, .leaf 1, .leaf 2]]])⟩]⟩)]
      = .ok [([.leaf 0, .leaf 1, .leaf 2], "Unknown", "x")] ∧
    collectFaces [("y", (⟨some "Building", none⟩ : CityObject))] = .ok [] := by
  constructor
  · exact (missing_fields_defaults "x" _ [] []
      [[.leaf 0, .leaf 1, .leaf 2]] rfl).1 rfl rfl
  · exact (missing_fields_defaults "y" _ [] [] [] rfl).2 rfl

end CityJson
